import Mathlib

/-!
Shallow embedding of the layout calculator and FE-topology builder of
`src/core/geometry.py` (`GeometryEngine.generate_structure`, lines 160-641,
and `GeometryEngine.create_nodes_plotly`, lines 134-158).

Conventions used throughout:

* Real arithmetic is modelled over `ℚ`.  The Python code evaluates
  `math.cos`, `math.sin`, `math.tan` of the tilt angle once (lines 175,
  227, 255, ...) and afterwards performs only field arithmetic with the
  results, so the embedding carries the three trigonometric values as
  additional parameters (`cos_a`, `sin_a`, `tan_a`); every concrete
  instantiation below uses tilt angle 0, where these are exactly 1, 0, 0.

* Python float formatting `f"N_\x7bx:.3f\x7d_..."` (line 561) rounds each
  coordinate to three decimals and prints a minus sign exactly when the
  value is negative, so -0.0001 prints as "-0.000", a different string
  than "0.000".  A node identifier is therefore modelled per coordinate
  as the pair of the rounded integer milli-value and the displayed-sign
  bit for values that round to zero.  Exact decimal ties are rounded up
  here while binary doubles tie to even; no concrete input below sits on
  a tie, and no theorem depends on the tie direction.

* `numpy.argsort` ascending sorting (line 546) is modelled by
  `List.insertionSort` on the x coordinate.  Within one purlin all
  collected points share the exact y and z of that purlin, so points
  with equal x are fully identical and every sorting algorithm produces
  the same output list.

* Pynite raises on registering a duplicate node name; the source wraps
  `add_node` in try/except (lines 562-566), which the embedding models
  as insert-or-skip (`registerList`).  `add_member` calls are recorded
  as the sequence of attempted member registrations.

* Python raises IndexError on out-of-range list indexing; the embedding
  uses `List.getD` with an explicit default.  All concrete inputs below
  keep every index in range except where a theorem explicitly says
  otherwise.
-/

namespace SolarStruct

/-- Coordinate triple, from the `[x, y, z]` lists the source passes around. -/
@[ext]
structure Point3 where
  x : ℚ
  y : ℚ
  z : ℚ
deriving DecidableEq

/-- Input parameters of `generate_structure` (the `params` mapping built by
the dashboard, unpacked in lines 167-219).  Count-like entries are `ℕ`
(the source applies `int(...)`), lengths and gaps are rationals.
`blk_heigth` keeps the source's spelling of the key `params['blk_heigth']`.
`cos_a`, `sin_a`, `tan_a` stand for `math.cos(angle_rad)`,
`math.sin(angle_rad)`, `math.tan(angle_rad)`. -/
structure ParameterSet where
  panel_length : ℚ
  panel_width : ℚ
  panel_thickness : ℚ
  angle : ℚ
  cos_a : ℚ
  sin_a : ℚ
  tan_a : ℚ
  rows : ℕ
  cols : ℕ
  front_offset : ℚ
  rear_offset : ℚ
  purlin_offset : ℚ
  rafter_purlin_offset : ℚ
  hor_panel_overhang : ℚ
  hor_purlin_overhang : ℚ
  h_gap : ℚ
  v_gap : ℚ
  col_min_height : ℚ
  col_len : ℚ
  col_wid : ℚ
  col_thk : ℚ
  raf_len : ℚ
  raf_wid : ℚ
  raf_thk : ℚ
  pur_len : ℚ
  pur_wid : ℚ
  pur_thk : ℚ
  blk_len : ℚ
  blk_wid : ℚ
  blk_heigth : ℚ
  y_cols : ℕ
  x_cols : ℕ
  copies_in_x : ℕ
  x_gap : ℚ
  copies_in_y : ℕ
  y_gap : ℚ
deriving DecidableEq

/-- Line 222: `horiz_spacing = p_wid + h_gap`. -/
def horiz_spacing (P : ParameterSet) : ℚ := P.panel_width + P.h_gap

/-- Line 223: `vert_spacing = p_len + v_gap`. -/
def vert_spacing (P : ParameterSet) : ℚ := P.panel_length + P.v_gap

/-- Line 224: `total_width = cols * horiz_spacing - h_gap - 2*hor_panel_overhang`. -/
def total_width (P : ParameterSet) : ℚ :=
  P.cols * horiz_spacing P - P.h_gap - 2 * P.hor_panel_overhang

/-- Line 225: `total_slope_length = rows * vert_spacing - v_gap`. -/
def total_slope_length (P : ParameterSet) : ℚ := P.rows * vert_spacing P - P.v_gap

/-- Line 227: `total_ground_length = total_slope_length * cos(angle)`. -/
def total_ground_length (P : ParameterSet) : ℚ := total_slope_length P * P.cos_a

/-- Line 237: `div_y = max(1, y_cols_count - 1)`. -/
def div_y (P : ParameterSet) : ℕ := max 1 (P.y_cols - 1)

/-- Line 238: `div_x = max(1, x_cols_count - 1)`. -/
def div_x (P : ParameterSet) : ℕ := max 1 (P.x_cols - 1)

/-- Line 240: ground-projected spacing between support columns along Y. -/
def y_spacing_ground (P : ParameterSet) : ℚ :=
  (total_ground_length P - (P.front_offset + P.rear_offset) * P.cos_a) / div_y P

/-- Line 241: `x_spacing = total_width / div_x if div_x > 0 else 0`. -/
def x_spacing (P : ParameterSet) : ℚ :=
  if 0 < div_x P then total_width P / div_x P else 0

/-- Line 253: X center used for a column (and its block); note the
`- raf_wid` shift in the multi-column branch and the centering when a
single support column exists along X. -/
def columnCX (P : ParameterSet) (x_i : ℕ) : ℚ :=
  if 1 < P.x_cols then P.hor_panel_overhang + x_i * x_spacing P - P.raf_wid
  else total_width P / 2

/-- Line 254: `cy = front_off*cos(angle) + y_i*y_spacing_ground`. -/
def columnCY (P : ParameterSet) (y_i : ℕ) : ℚ :=
  P.front_offset * P.cos_a + y_i * y_spacing_ground P

/-- Line 255: `calculated_height = col_h_min + cy*tan(angle)`. -/
def calculated_height (P : ParameterSet) (y_i : ℕ) : ℚ :=
  P.col_min_height + columnCY P y_i * P.tan_a

/-- Line 261: center passed to the column builder for array copy `(i, j)`. -/
def columnCenter (P : ParameterSet) (i j y_i x_i : ℕ) : Point3 :=
  ⟨columnCX P x_i + P.x_gap * i, columnCY P y_i + P.y_gap * j,
    calculated_height P y_i / 2⟩

/-- Lines 274-278: the block center shares the column's X/Y and sits at
`-(blk_height/2)`. -/
def blockCenter (P : ParameterSet) (i j y_i x_i : ℕ) : Point3 :=
  ⟨columnCX P x_i + P.x_gap * i, columnCY P y_i + P.y_gap * j,
    -(P.blk_heigth / 2)⟩

/-- Component role tag, from the `name=` arguments of the builder calls. -/
inductive Kind
  | column
  | block
  | rafter
  | purlin
  | panel
deriving DecidableEq

/-- Positioned component descriptor: what the source hands to the solid
builders (center plus the three principal dimensions). -/
structure Descriptor where
  kind : Kind
  center : Point3
  len : ℚ
  wid : ℚ
  hei : ℚ
deriving DecidableEq

/-- Column emissions of the loops at lines 244-270, in loop order
`i, j, y_i, x_i`. -/
def columnDescriptors (P : ParameterSet) : List Descriptor :=
  (List.range P.copies_in_x).flatMap fun i =>
    (List.range P.copies_in_y).flatMap fun j =>
      (List.range P.y_cols).flatMap fun y_i =>
        (List.range P.x_cols).map fun x_i =>
          ⟨Kind.column, columnCenter P i j y_i x_i, P.col_len, P.col_wid,
            calculated_height P y_i⟩

/-- Block emissions of the loops at lines 244-284, same loop order. -/
def blockDescriptors (P : ParameterSet) : List Descriptor :=
  (List.range P.copies_in_x).flatMap fun i =>
    (List.range P.copies_in_y).flatMap fun j =>
      (List.range P.y_cols).flatMap fun y_i =>
        (List.range P.x_cols).map fun x_i =>
          ⟨Kind.block, blockCenter P i j y_i x_i, P.blk_len, P.blk_wid,
            P.blk_heigth⟩

/-- Line 292: `rafter_off = purlin_off - rafter_purlin_off`. -/
def rafter_off (P : ParameterSet) : ℚ := P.purlin_offset - P.rafter_purlin_offset

/-- Line 302. -/
def rafter_mid_z (P : ParameterSet) : ℚ :=
  P.col_min_height + (total_ground_length P * P.tan_a) / 2 + P.raf_len / 2

/-- Line 303. -/
def rafter_mid_y (P : ParameterSet) : ℚ :=
  (if 0 < rafter_off P then rafter_off P * P.cos_a else 0) +
    (total_ground_length P - 2 * rafter_off P * P.cos_a) / 2

/-- Line 304. -/
def rafter_height (P : ParameterSet) : ℚ := total_slope_length P - 2 * rafter_off P

/-- Line 307: X position of rafter `x_i` (centered when a single support
column exists along X). -/
def rafterX (P : ParameterSet) (x_i : ℕ) : ℚ :=
  if 1 < P.x_cols then P.hor_panel_overhang + x_i * x_spacing P
  else total_width P / 2

/-- Line 310: center passed to the rafter builder for array copy `(i, j)`. -/
def rafterCenter (P : ParameterSet) (i j x_i : ℕ) : Point3 :=
  ⟨rafterX P x_i + P.x_gap * i, rafter_mid_y P + P.y_gap * j, rafter_mid_z P⟩

/-- Rafter emissions of the loops at lines 298-319. -/
def rafterDescriptors (P : ParameterSet) : List Descriptor :=
  (List.range P.copies_in_x).flatMap fun i =>
    (List.range P.copies_in_y).flatMap fun j =>
      (List.range P.x_cols).map fun x_i =>
        ⟨Kind.rafter, rafterCenter P i j x_i, P.raf_len, P.raf_wid,
          rafter_height P⟩

/-- The X positions of one copy's rafters, appended per copy into
`rafter_x_nodes` (line 321). -/
def rafterXs (P : ParameterSet) : List ℚ := (List.range P.x_cols).map (rafterX P)

/-- Line 321 accumulation: `rafter_x_nodes` collects the (copy-independent)
rafter X positions once per array copy. -/
def rafter_x_nodes (P : ParameterSet) : List ℚ :=
  (List.range P.copies_in_x).flatMap fun _ =>
    (List.range P.copies_in_y).flatMap fun _ => rafterXs P

/-- Line 333: `local_x = c*horiz_spacing + p_wid/2`. -/
def panel_local_x (P : ParameterSet) (c : ℕ) : ℚ :=
  c * horiz_spacing P + P.panel_width / 2

/-- Line 332: `local_y = r*vert_spacing + p_len/2`. -/
def panel_local_y (P : ParameterSet) (r : ℕ) : ℚ :=
  r * vert_spacing P + P.panel_length / 2

/-- Line 336: `stack_height = raf_len + pur_len + p_thk/2 + 0.02`. -/
def stack_height (P : ParameterSet) : ℚ :=
  P.raf_len + P.pur_len + P.panel_thickness / 2 + 1 / 50

/-- Lines 335-340: center passed to the panel builder. -/
def panelCenter (P : ParameterSet) (i j c r : ℕ) : Point3 :=
  ⟨panel_local_x P c + P.x_gap * i,
    panel_local_y P r * P.cos_a + P.y_gap * j,
    P.col_min_height + panel_local_y P r * P.sin_a + stack_height P⟩

/-- Panel emissions of the loops at lines 327-348, in loop order
`i, j, c, r`. -/
def panelDescriptors (P : ParameterSet) : List Descriptor :=
  (List.range P.copies_in_x).flatMap fun i =>
    (List.range P.copies_in_y).flatMap fun j =>
      (List.range P.cols).flatMap fun c =>
        (List.range P.rows).map fun r =>
          ⟨Kind.panel, panelCenter P i j c r, P.panel_length, P.panel_width,
            P.panel_thickness⟩

/-- Line 350: `x_coord = local_x - p_wid/2 - h_gap/2 if c > 1 else
local_x - p_wid/2` (note the asymmetric `c > 1` test of the source). -/
def panel_x_coord (P : ParameterSet) (c : ℕ) : ℚ :=
  if 1 < c then panel_local_x P c - P.panel_width / 2 - P.h_gap / 2
  else panel_local_x P c - P.panel_width / 2

/-- Lines 350-353: `x_coords` accumulates one entry per panel column per
array copy and is never reset, and `panel_x_coords` is its final snapshot. -/
def panel_x_coords (P : ParameterSet) : List ℚ :=
  (List.range P.copies_in_x).flatMap fun _ =>
    (List.range P.copies_in_y).flatMap fun _ =>
      (List.range P.cols).map (panel_x_coord P)

/-- Line 358: `purlin_spacing = (p_len - purlin_off*2)*cos(angle)`. -/
def purlin_spacing (P : ParameterSet) : ℚ :=
  (P.panel_length - P.purlin_offset * 2) * P.cos_a

/-- Line 374: Y position of row `row`'s upper purlin. -/
def purY1 (P : ParameterSet) (row : ℕ) : ℚ :=
  row * (P.panel_length + P.v_gap) * P.cos_a + P.purlin_offset * P.cos_a

/-- Line 375: Y position of row `row`'s lower purlin. -/
def purY2 (P : ParameterSet) (row : ℕ) : ℚ := purY1 P row + purlin_spacing P

/-- Line 376: Z position of row `row`'s upper purlin. -/
def purZ1 (P : ParameterSet) (row : ℕ) : ℚ :=
  P.col_min_height + purY1 P row * P.tan_a + P.raf_len * (3 / 2)

/-- Line 377: Z position of row `row`'s lower purlin. -/
def purZ2 (P : ParameterSet) (row : ℕ) : ℚ :=
  P.col_min_height + purY2 P row * P.tan_a + P.raf_len * (3 / 2)

/-- Line 381: `cx = hor_panel_overhang + total_width / 2`, the purlin
center X; the array-copy indices are not used here. -/
def purCX (P : ParameterSet) : ℚ := P.hor_panel_overhang + total_width P / 2

/-- Line 384: `perlin_height = total_width + 2*hor_purlin_overhang`
(the purlin's span along X; source spelling kept). -/
def perlin_height (P : ParameterSet) : ℚ :=
  total_width P + 2 * P.hor_purlin_overhang

/-- Lines 386-421: center passed to the purlin builder for row `row`
(upper or lower).  The surrounding array-copy loop variables `i, j` are
not used by these expressions in the source. -/
def purlinCenter (P : ParameterSet) (row : ℕ) (upper : Bool) : Point3 :=
  if upper then ⟨purCX P, purY1 P row, purZ1 P row⟩
  else ⟨purCX P, purY2 P row, purZ2 P row⟩

/-- Purlin emissions of the loops at lines 365-421, in loop order
`i, j, row` with the upper purlin emitted before the lower one. -/
def purlinDescriptors (P : ParameterSet) : List Descriptor :=
  (List.range P.copies_in_x).flatMap fun _ =>
    (List.range P.copies_in_y).flatMap fun _ =>
      (List.range P.rows).flatMap fun row =>
        [⟨Kind.purlin, purlinCenter P row true, P.pur_len, P.pur_wid,
            perlin_height P⟩,
          ⟨Kind.purlin, purlinCenter P row false, P.pur_len, P.pur_wid,
            perlin_height P⟩]

/-- One purlin's collected point data (lines 398-428): the two physical
endpoints, the rafter-crossing points (one per entry of
`rafter_x_nodes`) and the panel-edge points (one per entry of
`panel_x_coords`), all sharing the purlin's exact y and z. -/
structure OnePurlin where
  endL : Point3
  endR : Point3
  rafPts : List Point3
  panPts : List Point3
deriving DecidableEq

/-- Point data of row `row`'s upper/lower purlin, lines 398-428. -/
def purlinAt (P : ParameterSet) (row : ℕ) (upper : Bool) : OnePurlin :=
  let cy := if upper then purY1 P row else purY2 P row
  let cz := if upper then purZ1 P row else purZ2 P row
  { endL := ⟨purCX P - perlin_height P / 2, cy, cz⟩
    endR := ⟨purCX P + perlin_height P / 2, cy, cz⟩
    rafPts := (rafter_x_nodes P).map fun x => ⟨x, cy, cz⟩
    panPts := (panel_x_coords P).map fun x => ⟨x, cy, cz⟩ }

/-- The purlins in the iteration order of `pur_points` (lines 534-535):
array copies in order, then rows, upper before lower.  The collected
point lists are copy-independent in the source, so every copy
contributes the same purlin data. -/
def allPurlins (P : ParameterSet) : List OnePurlin :=
  (List.range P.copies_in_x).flatMap fun _ =>
    (List.range P.copies_in_y).flatMap fun _ =>
      (List.range P.rows).flatMap fun row =>
        [purlinAt P row true, purlinAt P row false]

/-- `raf_pur_inter_points` (lines 402, 427, 433-434): per (copy, row)
entry, the pair of upper and lower rafter-crossing point lists. -/
def rafPurInter (P : ParameterSet) : List (List Point3 × List Point3) :=
  (List.range P.copies_in_x).flatMap fun _ =>
    (List.range P.copies_in_y).flatMap fun _ =>
      (List.range P.rows).map fun row =>
        ((rafter_x_nodes P).map fun x => ⟨x, purY1 P row, purZ1 P row⟩,
          (rafter_x_nodes P).map fun x => ⟨x, purY2 P row, purZ2 P row⟩)

/-- Line 446: gradient of the roof line `z = m*y + c` fitted through the
last row's upper and lower rafter/purlin intersection points (the values
left in `up_per_raf_points` / `low_per_raf_points` after the row loop;
their z and y do not depend on which rafter index 0 denotes).  `ℚ`
division by zero yields 0; Python would raise there instead, and no
instantiation below divides by zero. -/
def slope_m (P : ParameterSet) : ℚ :=
  (purZ2 P (P.rows - 1) - purZ1 P (P.rows - 1)) /
    (purY2 P (P.rows - 1) - purY1 P (P.rows - 1))

/-- Line 447: intercept of the fitted roof line. -/
def slope_c (P : ParameterSet) : ℚ :=
  purZ2 P (P.rows - 1) - slope_m P * purY2 P (P.rows - 1)

/-- Lines 286-287: `column_y_pos`, one Y per support-column row (rebuilt
identically for every array copy; final snapshot kept). -/
def column_y_pos (P : ParameterSet) : List ℚ :=
  (List.range P.y_cols).map fun y_i => columnCY P y_i

/-- Lines 458-460: `column_coords`, the ground-to-soffit segments; the
soffit Z is `m*y + c` evaluated at the column's own Y
(`column_top_height`, line 448).  The outer copy loop re-appends the
whole block once per array copy, and `rafter_x_nodes` itself already
repeats per copy. -/
def column_coords (P : ParameterSet) : List (Point3 × Point3) :=
  (List.range P.copies_in_x).flatMap fun _ =>
    (List.range P.copies_in_y).flatMap fun _ =>
      (rafter_x_nodes P).flatMap fun x =>
        (List.range P.y_cols).map fun k =>
          (⟨x, columnCY P k, 0⟩,
            ⟨x, columnCY P k, slope_m P * columnCY P k + slope_c P⟩)

/-- Rounding of a coordinate to three decimals as an integer number of
milli-units, the rounding performed by the `:.3f` format at line 561. -/
def round3 (q : ℚ) : ℤ := ⌊1000 * q + 1 / 2⌋

/-- One formatted coordinate of a node name: the rounded milli-value
plus the displayed-sign bit (`true` exactly for negative values that
round to zero, which print as "-0.000").  Two coordinates produce the
same formatted text iff their `fmt3` values are equal. -/
def fmt3 (q : ℚ) : ℤ × Bool :=
  (round3 q, if q < 0 ∧ round3 q = 0 then true else false)

/-- A node identifier: the content of the formatted name
`N_x_y_z` of line 561, one `fmt3` per coordinate. -/
abbrev NodeId := (ℤ × Bool) × (ℤ × Bool) × (ℤ × Bool)

/-- The node identifier of a point (line 561). -/
def nodeId (p : Point3) : NodeId := (fmt3 p.x, fmt3 p.y, fmt3 p.z)

/-- Structural role of a member (purlin pass vs rafter pass). -/
inductive Role
  | purlin
  | rafter
deriving DecidableEq

/-- One `add_member` call: endpoint node names, the `rotation` argument
and the role (the member name `M_i_j` is determined by the endpoints). -/
structure Member where
  iNode : NodeId
  jNode : NodeId
  rot : ℚ
  role : Role
deriving DecidableEq

/-- Line 531: `purlin_angle = angle + 90`. -/
def purlin_angle (P : ParameterSet) : ℚ := P.angle + 90

/-- Line 596: `rafter_angle = 0`. -/
def rafter_angle : ℚ := 0

/-- Default node identifier for out-of-range `getD` reads. -/
def dId : NodeId := nodeId ⟨0, 0, 0⟩

/-- Lines 569-579 and 628-638: members between consecutive entries of a
node-name list (`for q in range(len(node_names)-1)`). -/
def chainMembers (names : List NodeId) (rot : ℚ) (role : Role) : List Member :=
  (List.range (names.length - 1)).map fun q =>
    ⟨names.getD q dId, names.getD (q + 1) dId, rot, role⟩

/-- Lines 556-566: registration of a point list against the model's node
table.  A point whose formatted name already exists is skipped entirely
(the `try add_node / except` pattern: the exception is caught and the
name is not appended to `node_names`).  Returns the grown table and the
per-component `node_names` chain, paired with the coordinates each name
was first registered with. -/
def registerList (nodes : List (NodeId × Point3)) :
    List Point3 → List (NodeId × Point3) × List (NodeId × Point3)
  | [] => (nodes, [])
  | p :: rest =>
    if nodeId p ∈ nodes.map Prod.fst then registerList nodes rest
    else
      let out := registerList (nodes ++ [(nodeId p, p)]) rest
      (out.1, (nodeId p, p) :: out.2)

/-- Decidability of the x-comparison used for sorting. -/
instance decRelXle : DecidableRel (fun p q : Point3 => p.x ≤ q.x) :=
  fun p q => inferInstanceAs (Decidable (p.x ≤ q.x))

instance totalXle : IsTotal Point3 (fun p q : Point3 => p.x ≤ q.x) :=
  ⟨fun a b => le_total a.x b.x⟩

instance transXle : IsTrans Point3 (fun p q : Point3 => p.x ≤ q.x) :=
  ⟨fun _ _ _ hab hbc => le_trans hab hbc⟩

/-- Lines 544-547: ascending sort of the concatenated rafter- and
panel-intersection points along x (`numpy.argsort`). -/
def sortByX (l : List Point3) : List Point3 :=
  List.insertionSort (fun p q : Point3 => p.x ≤ q.x) l

/-- Lines 536-553: `one_purlin_nodes` = left endpoint, then the sorted
rafter- and panel-intersections, then the right endpoint. -/
def one_purlin_nodes (pl : OnePurlin) : List Point3 :=
  pl.endL :: (sortByX (pl.rafPts ++ pl.panPts) ++ [pl.endR])

/-- The purlin node process (lines 534-579) over a purlin list: thread
the node table through `registerList` and record each purlin's chain. -/
def buildAux (nodes : List (NodeId × Point3)) :
    List OnePurlin → List (NodeId × Point3) × List (List (NodeId × Point3))
  | [] => (nodes, [])
  | pl :: rest =>
    let rc := registerList nodes (one_purlin_nodes pl)
    let out := buildAux rc.1 rest
    (out.1, rc.2 :: out.2)

/-- Node table after the purlin node process, starting from an empty model. -/
def purlinNodesTable (P : ParameterSet) : List (NodeId × Point3) :=
  (buildAux [] (allPurlins P)).1

/-- Per-purlin `node_names` chains (with registration coordinates). -/
def purlinChains (P : ParameterSet) : List (List (NodeId × Point3)) :=
  (buildAux [] (allPurlins P)).2

/-- Lines 569-579: each purlin's members chain its own `node_names`. -/
def purlinMemberss (P : ParameterSet) : List (List Member) :=
  (purlinChains P).map fun ch =>
    chainMembers (ch.map Prod.fst) (purlin_angle P) Role.purlin

/-- The `node_names` variable as the rafter pass finds it (lines 628-638):
the chain of the last purlin processed. -/
def lastChainNames (P : ParameterSet) : List NodeId :=
  ((purlinChains P).getLastD []).map Prod.fst

/-- Lines 599-638: the member registrations attempted by the rafter pass.
For every rafter index the loop at line 628 chains `node_names`, the
leftover variable holding the last purlin's chain, not the rafter's own
collected points (`one_rafter_names`).  In the FE engine these repeated
member names raise; the embedding records the attempted calls. -/
def rafterStageMembers (P : ParameterSet) : List (List Member) :=
  (List.range P.x_cols).map fun _ =>
    chainMembers (lastChainNames P) rafter_angle Role.rafter

/-- All member registrations attempted by the build, purlin pass then
rafter pass. -/
def allAttemptedMembers (P : ParameterSet) : List Member :=
  (purlinMemberss P).flatten ++ (rafterStageMembers P).flatten

/-- Line 614 `column_coords[i][c]`: element `c` of a ground/soffit pair
(`c = 0` ground, `c = 1` soffit; Python raises IndexError for
`c ≥ 2`, which the source hits whenever `y_cols > 2`). -/
def pairEntry (pr : Point3 × Point3) (c : ℕ) : Point3 :=
  if c = 0 then pr.1 else pr.2

/-- Lines 601-621: `one_rafter_names`, the node names the rafter pass
collects for rafter `i` — its purlin intersections across all
(copy, row) entries, upper then lower, followed by entries of the
`i`-th ground/soffit pair (which for `i > 0` is not even the pair of
rafter `i`'s own column).  The source never uses this list when it
builds members. -/
def one_rafter_names (P : ParameterSet) (i : ℕ) : List NodeId :=
  ((rafPurInter P).flatMap fun e =>
      [nodeId (e.1.getD i ⟨0, 0, 0⟩), nodeId (e.2.getD i ⟨0, 0, 0⟩)]) ++
    (List.range P.y_cols).map fun c =>
      nodeId (pairEntry ((column_coords P).getD i (⟨0, 0, 0⟩, ⟨0, 0, 0⟩)) c)

/-- Node cloud primitive: the three marker coordinate lists of the
`Scatter3d` built at lines 148-158. -/
structure ScatterTrace where
  xs : List ℚ
  ys : List ℚ
  zs : List ℚ
deriving DecidableEq

/-- A render primitive: a solid component mesh or the node point cloud. -/
inductive RenderItem
  | solid (d : Descriptor)
  | nodeCloud (t : ScatterTrace)
deriving DecidableEq

/-- Lines 134-158 `create_nodes_plotly`: `None` for an empty point list,
otherwise one marker trace with one marker per input point, in order. -/
def create_nodes_plotly (nodes_list : List Point3) : Option ScatterTrace :=
  if nodes_list = [] then none
  else some ⟨nodes_list.map Point3.x, nodes_list.map Point3.y,
    nodes_list.map Point3.z⟩

/-- Lines 491-493: `node_trace = create_nodes_plotly(...); if node_trace:
meshes.append(node_trace)` (a returned trace object is truthy). -/
def appendNodeTrace (meshes : List RenderItem) (nodes_list : List Point3) :
    List RenderItem :=
  match create_nodes_plotly nodes_list with
  | none => meshes
  | some t => meshes ++ [RenderItem.nodeCloud t]

/-- Concrete instantiation at tilt angle 0 (so `cos_a = 1`, `sin_a = 0`,
`tan_a = 0` hold exactly): one panel row and column, a single support
column in each direction, no array duplication.  All dimension
parameters are positive, matching the validity requirements. -/
def Pa : ParameterSet where
  panel_length := 4
  panel_width := 2
  panel_thickness := 1
  angle := 0
  cos_a := 1
  sin_a := 0
  tan_a := 0
  rows := 1
  cols := 1
  front_offset := 1 / 2
  rear_offset := 1 / 2
  purlin_offset := 1
  rafter_purlin_offset := 1
  hor_panel_overhang := 0
  hor_purlin_overhang := 1
  h_gap := 0
  v_gap := 0
  col_min_height := 10
  col_len := 1
  col_wid := 1
  col_thk := 1 / 10
  raf_len := 1
  raf_wid := 1
  raf_thk := 1 / 10
  pur_len := 1
  pur_wid := 1
  pur_thk := 1 / 10
  blk_len := 2
  blk_wid := 2
  blk_heigth := 1
  y_cols := 1
  x_cols := 1
  copies_in_x := 1
  x_gap := 0
  copies_in_y := 1
  y_gap := 0

/-- Variant of `Pa` with two array copies along X, 20 units apart. -/
def Pb : ParameterSet := { Pa with copies_in_x := 2, x_gap := 20 }

/-- Variant of `Pa` whose overhangs are tiny: the left purlin endpoint
sits at x = -0.0001 while the first panel edge sits at x = 0. -/
def Pc : ParameterSet :=
  { Pa with hor_panel_overhang := 1 / 10000, hor_purlin_overhang := 2 / 10000 }

/-- Variant of `Pa` whose panel overhang exceeds the purlin overhang, so
the left purlin endpoint lies to the right of the first panel edge. -/
def Pd : ParameterSet :=
  { Pa with panel_width := 4, hor_panel_overhang := 1, hor_purlin_overhang := 0 }

/-- Default descriptor for out-of-range `getD` reads in theorem statements. -/
def dDesc : Descriptor := ⟨Kind.purlin, ⟨0, 0, 0⟩, 0, 0, 0⟩

/-- Default member for out-of-range `getD` reads in theorem statements. -/
def dMember : Member := ⟨dId, dId, 0, Role.rafter⟩

end SolarStruct

namespace SolarStruct

/-! General lemmas about the node-registration fold `registerList`: the
chain is a subsequence of the input, every chain entry records its own
identifier, chain identifiers avoid the initial table and are pairwise
distinct, and on an x-sorted input of points sharing y and z the chain
is strictly increasing in x. -/

lemma registerList_map_snd_sublist (T : List (NodeId × Point3))
    (pts : List Point3) :
    ((registerList T pts).2.map Prod.snd).Sublist pts := by
  induction pts generalizing T with
  | nil => simp [registerList]
  | cons p rest ih =>
    by_cases h : nodeId p ∈ T.map Prod.fst
    · simp only [registerList, if_pos h]
      exact (ih T).cons p
    · simp only [registerList, if_neg h, List.map_cons]
      exact (ih (T ++ [(nodeId p, p)])).cons₂ p

lemma registerList_fst_eq (T : List (NodeId × Point3)) (pts : List Point3) :
    ∀ e ∈ (registerList T pts).2, e.1 = nodeId e.2 := by
  induction pts generalizing T with
  | nil => simp [registerList]
  | cons p rest ih =>
    by_cases h : nodeId p ∈ T.map Prod.fst
    · simp only [registerList, if_pos h]
      exact ih T
    · simp only [registerList, if_neg h]
      intro e he
      rcases List.mem_cons.mp he with rfl | htail
      · rfl
      · exact ih (T ++ [(nodeId p, p)]) e htail

lemma registerList_not_mem_table (T : List (NodeId × Point3))
    (pts : List Point3) :
    ∀ e ∈ (registerList T pts).2, e.1 ∉ T.map Prod.fst := by
  induction pts generalizing T with
  | nil =>
    intro e he
    simp [registerList] at he
  | cons p rest ih =>
    by_cases h : nodeId p ∈ T.map Prod.fst
    · simp only [registerList, if_pos h]
      exact ih T
    · simp only [registerList, if_neg h]
      intro e he
      rcases List.mem_cons.mp he with rfl | htail
      · exact h
      · intro hmem
        exact ih (T ++ [(nodeId p, p)]) e htail (by simp [hmem])

lemma registerList_ids_pairwise (T : List (NodeId × Point3))
    (pts : List Point3) :
    ((registerList T pts).2).Pairwise (fun a b => a.1 ≠ b.1) := by
  induction pts generalizing T with
  | nil =>
    simp only [registerList]
    exact List.Pairwise.nil
  | cons p rest ih =>
    by_cases h : nodeId p ∈ T.map Prod.fst
    · simp only [registerList, if_pos h]
      exact ih T
    · simp only [registerList, if_neg h]
      refine List.pairwise_cons.mpr ⟨?_, ih (T ++ [(nodeId p, p)])⟩
      have hin : nodeId p ∈ (T ++ [(nodeId p, p)]).map Prod.fst :=
        List.mem_map_of_mem Prod.fst
          (List.mem_append_right T (List.mem_singleton_self _))
      intro b hb heq
      exact registerList_not_mem_table (T ++ [(nodeId p, p)]) rest b hb
        (heq ▸ hin)

lemma registerList_strict_of_sorted (T : List (NodeId × Point3))
    (pts : List Point3)
    (hs : pts.Pairwise (fun p q : Point3 => p.x ≤ q.x))
    (hyz : ∀ p ∈ pts, ∀ q ∈ pts, p.y = q.y ∧ p.z = q.z) :
    ((registerList T pts).2).Pairwise (fun a b => a.2.x < b.2.x) := by
  have hsub := registerList_map_snd_sublist T pts
  have hle : ((registerList T pts).2).Pairwise
      (fun a b => a.2.x ≤ b.2.x) :=
    (@List.pairwise_map _ _ Prod.snd _ _).mp (hs.sublist hsub)
  have hne := registerList_ids_pairwise T pts
  have hmem : ∀ e ∈ (registerList T pts).2, e.2 ∈ pts := fun e he =>
    hsub.subset (List.mem_map_of_mem Prod.snd he)
  refine (hle.and hne).imp_of_mem ?_
  intro a b ha hb hab
  rcases hab with ⟨hx, hid⟩
  rcases hyz a.2 (hmem a ha) b.2 (hmem b hb) with ⟨hy, hz⟩
  refine lt_of_le_of_ne hx fun hxx => hid ?_
  have hpt : a.2 = b.2 := Point3.ext hxx hy hz
  rw [registerList_fst_eq T pts a ha, registerList_fst_eq T pts b hb, hpt]

/-! Bounds on the x positions a purlin collects: under the stated sign
conditions every rafter and panel x position lies between the purlin's
left endpoint `hor_panel_overhang - hor_purlin_overhang` and its right
endpoint `hor_panel_overhang + total_width + hor_purlin_overhang`. -/

lemma purCX_sub_half (P : ParameterSet) :
    purCX P - perlin_height P / 2 =
      P.hor_panel_overhang - P.hor_purlin_overhang := by
  unfold purCX perlin_height
  ring

lemma purCX_add_half (P : ParameterSet) :
    purCX P + perlin_height P / 2 =
      P.hor_panel_overhang + total_width P + P.hor_purlin_overhang := by
  unfold purCX perlin_height
  ring

lemma rafterX_bounds (P : ParameterSet) (x_i : ℕ) (hx : x_i < P.x_cols)
    (h3 : 0 ≤ total_width P) (h4 : 0 ≤ P.hor_panel_overhang)
    (h5 : P.hor_panel_overhang ≤ P.hor_purlin_overhang) :
    P.hor_panel_overhang - P.hor_purlin_overhang ≤ rafterX P x_i ∧
      rafterX P x_i ≤
        P.hor_panel_overhang + total_width P + P.hor_purlin_overhang := by
  have h6 : 0 ≤ P.hor_purlin_overhang := le_trans h4 h5
  unfold rafterX
  by_cases hc : 1 < P.x_cols
  · rw [if_pos hc]
    have hdivpos : 0 < div_x P := lt_of_lt_of_le Nat.zero_lt_one (le_max_left _ _)
    have hxs : x_spacing P = total_width P / (div_x P : ℚ) := by
      unfold x_spacing
      rw [if_pos hdivpos]
    have hd0 : (0 : ℚ) < (div_x P : ℚ) := by exact_mod_cast hdivpos
    have hs0 : 0 ≤ x_spacing P := by
      rw [hxs]
      exact div_nonneg h3 hd0.le
    constructor
    · have hnn : 0 ≤ (x_i : ℚ) * x_spacing P :=
        mul_nonneg (Nat.cast_nonneg x_i) hs0
      linarith
    · have hdx : div_x P = P.x_cols - 1 := by
        unfold div_x
        omega
      have hle : (x_i : ℚ) ≤ (div_x P : ℚ) := by
        exact_mod_cast (by omega : x_i ≤ div_x P)
      have hmul : (x_i : ℚ) * x_spacing P ≤ (div_x P : ℚ) * x_spacing P :=
        mul_le_mul_of_nonneg_right hle hs0
      have heq : (div_x P : ℚ) * x_spacing P = total_width P := by
        rw [hxs, mul_comm, div_mul_cancel₀ _ hd0.ne']
      linarith
  · rw [if_neg hc]
    constructor <;> linarith

lemma panel_x_coord_bounds (P : ParameterSet) (c : ℕ) (hc : c < P.cols)
    (h1 : 0 ≤ P.panel_width) (h2 : 0 ≤ P.h_gap)
    (_h4 : 0 ≤ P.hor_panel_overhang)
    (h5 : P.hor_panel_overhang ≤ P.hor_purlin_overhang) :
    P.hor_panel_overhang - P.hor_purlin_overhang ≤ panel_x_coord P c ∧
      panel_x_coord P c ≤
        P.hor_panel_overhang + total_width P + P.hor_purlin_overhang := by
  have hhs : horiz_spacing P = P.panel_width + P.h_gap := rfl
  have hs0 : 0 ≤ horiz_spacing P := by rw [hhs]; linarith
  have hcc : (c : ℚ) ≤ (P.cols : ℚ) - 1 := by
    have hcast : (c : ℚ) + 1 ≤ (P.cols : ℚ) := by
      exact_mod_cast Nat.succ_le_of_lt hc
    linarith
  have hval : panel_x_coord P c =
      c * horiz_spacing P - (if 1 < c then P.h_gap / 2 else 0) := by
    unfold panel_x_coord panel_local_x
    split <;> ring
  have htw : total_width P =
      P.cols * horiz_spacing P - P.h_gap - 2 * P.hor_panel_overhang := rfl
  have hub : (c : ℚ) * horiz_spacing P ≤ ((P.cols : ℚ) - 1) * horiz_spacing P :=
    mul_le_mul_of_nonneg_right hcc hs0
  have hub2 : ((P.cols : ℚ) - 1) * horiz_spacing P =
      (P.cols : ℚ) * horiz_spacing P - horiz_spacing P := by ring
  constructor
  · have hv0 : 0 ≤ (c : ℚ) * horiz_spacing P -
        (if 1 < c then P.h_gap / 2 else 0) := by
      by_cases h1c : 1 < c
      · rw [if_pos h1c]
        have h2c : (2 : ℚ) ≤ (c : ℚ) := by exact_mod_cast h1c
        have h2s : 2 * horiz_spacing P ≤ (c : ℚ) * horiz_spacing P :=
          mul_le_mul_of_nonneg_right h2c hs0
        rw [hhs] at h2s ⊢
        linarith
      · rw [if_neg h1c]
        have : 0 ≤ (c : ℚ) * horiz_spacing P :=
          mul_nonneg (Nat.cast_nonneg c) hs0
        linarith
    rw [hval]
    linarith
  · rw [hval, htw]
    by_cases h1c : 1 < c
    · rw [if_pos h1c]
      rw [hhs] at hub hub2 ⊢
      linarith
    · rw [if_neg h1c]
      rw [hhs] at hub hub2 ⊢
      linarith

lemma rafter_x_nodes_mem (P : ParameterSet) (x : ℚ)
    (h : x ∈ rafter_x_nodes P) : ∃ x_i, x_i < P.x_cols ∧ x = rafterX P x_i := by
  simp only [rafter_x_nodes, rafterXs, List.mem_flatMap, List.mem_map,
    List.mem_range] at h
  obtain ⟨i, -, j, -, x_i, hxi, rfl⟩ := h
  exact ⟨x_i, hxi, rfl⟩

lemma panel_x_coords_mem (P : ParameterSet) (x : ℚ)
    (h : x ∈ panel_x_coords P) : ∃ c, c < P.cols ∧ x = panel_x_coord P c := by
  simp only [panel_x_coords, List.mem_flatMap, List.mem_map,
    List.mem_range] at h
  obtain ⟨i, -, j, -, c, hc, rfl⟩ := h
  exact ⟨c, hc, rfl⟩

/-! Properties of one purlin's collected point list: all points share the
purlin's y and z, and under the sign conditions the list is weakly
sorted in x. -/

lemma purlinAt_points_yz (P : ParameterSet) (row : ℕ) (u : Bool) :
    ∀ p ∈ one_purlin_nodes (purlinAt P row u),
      p.y = (if u then purY1 P row else purY2 P row) ∧
        p.z = (if u then purZ1 P row else purZ2 P row) := by
  intro p hp
  simp only [one_purlin_nodes, List.mem_cons, List.mem_append,
    List.mem_singleton] at hp
  rcases hp with rfl | hp | rfl | h0
  · simp [purlinAt]
  · have hp2 : p ∈ (purlinAt P row u).rafPts ++ (purlinAt P row u).panPts :=
      (List.perm_insertionSort _ _).subset hp
    rcases List.mem_append.mp hp2 with h | h
    · simp only [purlinAt, List.mem_map] at h
      obtain ⟨xv, -, rfl⟩ := h
      simp
    · simp only [purlinAt, List.mem_map] at h
      obtain ⟨xv, -, rfl⟩ := h
      simp
  · simp [purlinAt]
  · exact absurd h0 (List.not_mem_nil p)

lemma purlinAt_common_yz (P : ParameterSet) (row : ℕ) (u : Bool) :
    ∀ p ∈ one_purlin_nodes (purlinAt P row u),
      ∀ q ∈ one_purlin_nodes (purlinAt P row u), p.y = q.y ∧ p.z = q.z := by
  intro p hp q hq
  rcases purlinAt_points_yz P row u p hp with ⟨hy1, hz1⟩
  rcases purlinAt_points_yz P row u q hq with ⟨hy2, hz2⟩
  exact ⟨hy1.trans hy2.symm, hz1.trans hz2.symm⟩

lemma purlinAt_points_sorted (P : ParameterSet) (row : ℕ) (u : Bool)
    (h1 : 0 ≤ P.panel_width) (h2 : 0 ≤ P.h_gap) (h3 : 0 ≤ total_width P)
    (h4 : 0 ≤ P.hor_panel_overhang)
    (h5 : P.hor_panel_overhang ≤ P.hor_purlin_overhang) :
    (one_purlin_nodes (purlinAt P row u)).Pairwise
      (fun p q : Point3 => p.x ≤ q.x) := by
  have hmidb : ∀ p ∈ sortByX ((purlinAt P row u).rafPts ++
      (purlinAt P row u).panPts),
      P.hor_panel_overhang - P.hor_purlin_overhang ≤ p.x ∧
        p.x ≤ P.hor_panel_overhang + total_width P + P.hor_purlin_overhang := by
    intro p hp
    have hp2 : p ∈ (purlinAt P row u).rafPts ++ (purlinAt P row u).panPts :=
      (List.perm_insertionSort _ _).subset hp
    rcases List.mem_append.mp hp2 with h | h
    · simp only [purlinAt, List.mem_map] at h
      obtain ⟨xv, hxv, rfl⟩ := h
      obtain ⟨x_i, hxi, rfl⟩ := rafter_x_nodes_mem P xv hxv
      exact rafterX_bounds P x_i hxi h3 h4 h5
    · simp only [purlinAt, List.mem_map] at h
      obtain ⟨xv, hxv, rfl⟩ := h
      obtain ⟨c, hcc, rfl⟩ := panel_x_coords_mem P xv hxv
      exact panel_x_coord_bounds P c hcc h1 h2 h4 h5
  have hsorted : (sortByX ((purlinAt P row u).rafPts ++
      (purlinAt P row u).panPts)).Pairwise (fun p q : Point3 => p.x ≤ q.x) :=
    List.sorted_insertionSort _ _
  have hLx : (purlinAt P row u).endL.x =
      P.hor_panel_overhang - P.hor_purlin_overhang := by
    simp only [purlinAt]
    exact purCX_sub_half P
  have hRx : (purlinAt P row u).endR.x =
      P.hor_panel_overhang + total_width P + P.hor_purlin_overhang := by
    simp only [purlinAt]
    exact purCX_add_half P
  simp only [one_purlin_nodes]
  refine List.pairwise_cons.mpr ⟨?_, ?_⟩
  · intro b hb
    rcases List.mem_append.mp hb with hbm | hbe
    · rw [hLx]
      exact (hmidb b hbm).1
    · rw [List.mem_singleton.mp hbe, hLx, hRx]
      have h6 : 0 ≤ P.hor_purlin_overhang := le_trans h4 h5
      linarith
  · refine List.pairwise_append.mpr ⟨hsorted, by simp, ?_⟩
    intro a ha b hb
    rw [List.mem_singleton.mp hb, hRx]
    exact (hmidb a ha).2

/-- Every entry of `allPurlins` is a `purlinAt`. -/
lemma mem_allPurlins (P : ParameterSet) {pl : OnePurlin}
    (h : pl ∈ allPurlins P) : ∃ row u, pl = purlinAt P row u := by
  simp only [allPurlins, List.mem_flatMap, List.mem_range] at h
  obtain ⟨i, -, j, -, row, -, hmem⟩ := h
  rcases List.mem_cons.mp hmem with h1 | h2
  · exact ⟨row, true, h1⟩
  · exact ⟨row, false, List.mem_singleton.mp h2⟩

/-- Chains produced by the purlin node process from sorted, common-yz
point lists are strictly increasing in x, for every initial node table. -/
lemma buildAux_chains_pairwise (pls : List OnePurlin) :
    ∀ T : List (NodeId × Point3),
      (∀ pl ∈ pls,
        (one_purlin_nodes pl).Pairwise (fun p q : Point3 => p.x ≤ q.x) ∧
          (∀ p ∈ one_purlin_nodes pl, ∀ q ∈ one_purlin_nodes pl,
            p.y = q.y ∧ p.z = q.z)) →
      ∀ ch ∈ (buildAux T pls).2,
        ch.Pairwise (fun a b => a.2.x < b.2.x) := by
  induction pls with
  | nil =>
    intro T h ch hch
    simp [buildAux] at hch
  | cons pl rest ih =>
    intro T h ch hch
    simp only [buildAux] at hch
    rcases List.mem_cons.mp hch with rfl | htail
    · exact registerList_strict_of_sorted T _ (h pl (by simp)).1
        (h pl (by simp)).2
    · exact ih _ (fun q hq => h q (by simp [hq])) ch htail

end SolarStruct

namespace SolarStruct

/-! Small general helpers used by several theorems below. -/

lemma registerList_cons_mem (nodes : List (NodeId × Point3)) (p : Point3)
    (pts : List Point3) (h : nodeId p ∈ nodes.map Prod.fst) :
    registerList nodes (p :: pts) = registerList nodes pts := by
  simp only [registerList, if_pos h]

lemma registerList_cons_not_mem (nodes : List (NodeId × Point3)) (p : Point3)
    (pts : List Point3) (h : nodeId p ∉ nodes.map Prod.fst) :
    registerList nodes (p :: pts) =
      ((registerList (nodes ++ [(nodeId p, p)]) pts).1,
        (nodeId p, p) :: (registerList (nodes ++ [(nodeId p, p)]) pts).2) := by
  simp only [registerList, if_neg h]

lemma chainMembers_of_short (names : List NodeId) (rot : ℚ) (role : Role)
    (h : names.length ≤ 1) : chainMembers names rot role = [] := by
  have hz : names.length - 1 = 0 := by omega
  simp [chainMembers, hz]

lemma getD_map_eq {a b : Type} (f : a → b) (l : List a) (k : ℕ) (d : a) :
    (l.map f).getD k (f d) = f (l.getD k d) := by
  induction l generalizing k with
  | nil => simp
  | cons hd tl ih =>
    cases k with
    | zero => simp
    | succ k2 => simp [ih k2]

lemma length_flatMap_range {b : Type} (n : ℕ) (f : ℕ → List b) (K : ℕ)
    (h : ∀ i, (f i).length = K) :
    ((List.range n).flatMap f).length = n * K := by
  induction n with
  | zero => simp
  | succ m ih =>
    rw [List.range_succ, List.flatMap_append, List.length_append, ih]
    simp [h m]
    ring

/-! Concrete evaluations shared by several theorems: the purlin chains and
node tables of the parameter sets `Pa`, `Pb`, `Pc`, `Pd`, plus the
descriptor and member lists the concrete theorems read off. -/

lemma Pa_chains_eval : purlinChains Pa =
    [[(((-1000, false), (1000, false), (11500, false)), ⟨-1, 1, 23/2⟩),
      (((0, false), (1000, false), (11500, false)), ⟨0, 1, 23/2⟩),
      (((1000, false), (1000, false), (11500, false)), ⟨1, 1, 23/2⟩),
      (((3000, false), (1000, false), (11500, false)), ⟨3, 1, 23/2⟩)],
     [(((-1000, false), (3000, false), (11500, false)), ⟨-1, 3, 23/2⟩),
      (((0, false), (3000, false), (11500, false)), ⟨0, 3, 23/2⟩),
      (((1000, false), (3000, false), (11500, false)), ⟨1, 3, 23/2⟩),
      (((3000, false), (3000, false), (11500, false)), ⟨3, 3, 23/2⟩)]] := by
  norm_num [purlinChains, buildAux, registerList, nodeId, fmt3, round3,
    one_purlin_nodes, sortByX, List.insertionSort, List.orderedInsert,
    allPurlins, purlinAt, purCX, perlin_height, purY1, purY2, purZ1, purZ2,
    purlin_spacing, rafter_x_nodes, rafterXs, rafterX, x_spacing, div_x,
    total_width, horiz_spacing, panel_x_coords, panel_x_coord, panel_local_x,
    Pa, List.range_succ]

lemma Pb_chains_eval : purlinChains Pb =
    [[(((-1000, false), (1000, false), (11500, false)), ⟨-1, 1, 23/2⟩),
      (((0, false), (1000, false), (11500, false)), ⟨0, 1, 23/2⟩),
      (((1000, false), (1000, false), (11500, false)), ⟨1, 1, 23/2⟩),
      (((3000, false), (1000, false), (11500, false)), ⟨3, 1, 23/2⟩)],
     [(((-1000, false), (3000, false), (11500, false)), ⟨-1, 3, 23/2⟩),
      (((0, false), (3000, false), (11500, false)), ⟨0, 3, 23/2⟩),
      (((1000, false), (3000, false), (11500, false)), ⟨1, 3, 23/2⟩),
      (((3000, false), (3000, false), (11500, false)), ⟨3, 3, 23/2⟩)],
     [], []] := by
  norm_num [purlinChains, buildAux, registerList, nodeId, fmt3, round3,
    one_purlin_nodes, sortByX, List.insertionSort, List.orderedInsert,
    allPurlins, purlinAt, purCX, perlin_height, purY1, purY2, purZ1, purZ2,
    purlin_spacing, rafter_x_nodes, rafterXs, rafterX, x_spacing, div_x,
    total_width, horiz_spacing, panel_x_coords, panel_x_coord, panel_local_x,
    Pb, Pa, List.range_succ]

lemma Pc_table_eval : purlinNodesTable Pc =
    [(((0, true), (1000, false), (11500, false)), ⟨-1/10000, 1, 23/2⟩),
     (((0, false), (1000, false), (11500, false)), ⟨0, 1, 23/2⟩),
     (((1000, false), (1000, false), (11500, false)), ⟨9999/10000, 1, 23/2⟩),
     (((2000, false), (1000, false), (11500, false)), ⟨20001/10000, 1, 23/2⟩),
     (((0, true), (3000, false), (11500, false)), ⟨-1/10000, 3, 23/2⟩),
     (((0, false), (3000, false), (11500, false)), ⟨0, 3, 23/2⟩),
     (((1000, false), (3000, false), (11500, false)), ⟨9999/10000, 3, 23/2⟩),
     (((2000, false), (3000, false), (11500, false)), ⟨20001/10000, 3, 23/2⟩)] := by
  norm_num [purlinNodesTable, buildAux, registerList, nodeId, fmt3, round3,
    one_purlin_nodes, sortByX, List.insertionSort, List.orderedInsert,
    allPurlins, purlinAt, purCX, perlin_height, purY1, purY2, purZ1, purZ2,
    purlin_spacing, rafter_x_nodes, rafterXs, rafterX, x_spacing, div_x,
    total_width, horiz_spacing, panel_x_coords, panel_x_coord, panel_local_x,
    Pc, Pa, List.range_succ]

lemma Pd_chains_eval : purlinChains Pd =
    [[(((1000, false), (1000, false), (11500, false)), ⟨1, 1, 23/2⟩),
      (((0, false), (1000, false), (11500, false)), ⟨0, 1, 23/2⟩),
      (((3000, false), (1000, false), (11500, false)), ⟨3, 1, 23/2⟩)],
     [(((1000, false), (3000, false), (11500, false)), ⟨1, 3, 23/2⟩),
      (((0, false), (3000, false), (11500, false)), ⟨0, 3, 23/2⟩),
      (((3000, false), (3000, false), (11500, false)), ⟨3, 3, 23/2⟩)]] := by
  norm_num [purlinChains, buildAux, registerList, nodeId, fmt3, round3,
    one_purlin_nodes, sortByX, List.insertionSort, List.orderedInsert,
    allPurlins, purlinAt, purCX, perlin_height, purY1, purY2, purZ1, purZ2,
    purlin_spacing, rafter_x_nodes, rafterXs, rafterX, x_spacing, div_x,
    total_width, horiz_spacing, panel_x_coords, panel_x_coord, panel_local_x,
    Pd, Pa, List.range_succ]

lemma Pa_rafPurInter_eval : rafPurInter Pa =
    [([⟨1, 1, 23/2⟩], [⟨1, 3, 23/2⟩])] := by
  norm_num [rafPurInter, purY1, purY2, purZ1, purZ2, purlin_spacing,
    rafter_x_nodes, rafterXs, rafterX, x_spacing, div_x, total_width,
    horiz_spacing, Pa, List.range_succ]

lemma Pa_column_coords_eval : column_coords Pa =
    [(⟨1, 1/2, 0⟩, ⟨1, 1/2, 23/2⟩)] := by
  norm_num [column_coords, columnCY, y_spacing_ground, total_ground_length,
    total_slope_length, vert_spacing, div_y, slope_m, slope_c, purY1, purY2,
    purZ1, purZ2, purlin_spacing, rafter_x_nodes, rafterXs, rafterX, x_spacing,
    div_x, total_width, horiz_spacing, Pa, List.range_succ]

lemma Pa_last_names_eval : lastChainNames Pa =
    [((-1000, false), (3000, false), (11500, false)),
     ((0, false), (3000, false), (11500, false)),
     ((1000, false), (3000, false), (11500, false)),
     ((3000, false), (3000, false), (11500, false))] := by
  rw [lastChainNames, Pa_chains_eval]
  norm_num [List.getLastD]

lemma Pa_rafter_members_eval : rafterStageMembers Pa =
    [[⟨((-1000, false), (3000, false), (11500, false)),
        ((0, false), (3000, false), (11500, false)), 0, Role.rafter⟩,
      ⟨((0, false), (3000, false), (11500, false)),
        ((1000, false), (3000, false), (11500, false)), 0, Role.rafter⟩,
      ⟨((1000, false), (3000, false), (11500, false)),
        ((3000, false), (3000, false), (11500, false)), 0, Role.rafter⟩]] := by
  rw [rafterStageMembers, Pa_last_names_eval]
  norm_num [chainMembers, rafter_angle, show Pa.x_cols = 1 from rfl,
    List.range_succ, dId, nodeId, fmt3, round3]

lemma Pa_one_rafter_names_eval : one_rafter_names Pa 0 =
    [((1000, false), (1000, false), (11500, false)),
     ((1000, false), (3000, false), (11500, false)),
     ((1000, false), (500, false), (0, false))] := by
  rw [one_rafter_names, Pa_rafPurInter_eval, Pa_column_coords_eval]
  norm_num [pairEntry, nodeId, fmt3, round3, Pa, List.range_succ]

lemma Pa_members_eval : allAttemptedMembers Pa =
    [⟨((-1000, false), (1000, false), (11500, false)),
        ((0, false), (1000, false), (11500, false)), 90, Role.purlin⟩,
     ⟨((0, false), (1000, false), (11500, false)),
        ((1000, false), (1000, false), (11500, false)), 90, Role.purlin⟩,
     ⟨((1000, false), (1000, false), (11500, false)),
        ((3000, false), (1000, false), (11500, false)), 90, Role.purlin⟩,
     ⟨((-1000, false), (3000, false), (11500, false)),
        ((0, false), (3000, false), (11500, false)), 90, Role.purlin⟩,
     ⟨((0, false), (3000, false), (11500, false)),
        ((1000, false), (3000, false), (11500, false)), 90, Role.purlin⟩,
     ⟨((1000, false), (3000, false), (11500, false)),
        ((3000, false), (3000, false), (11500, false)), 90, Role.purlin⟩,
     ⟨((-1000, false), (3000, false), (11500, false)),
        ((0, false), (3000, false), (11500, false)), 0, Role.rafter⟩,
     ⟨((0, false), (3000, false), (11500, false)),
        ((1000, false), (3000, false), (11500, false)), 0, Role.rafter⟩,
     ⟨((1000, false), (3000, false), (11500, false)),
        ((3000, false), (3000, false), (11500, false)), 0, Role.rafter⟩] := by
  rw [allAttemptedMembers, purlinMemberss, Pa_chains_eval,
    Pa_rafter_members_eval]
  norm_num [chainMembers, purlin_angle, Pa, List.range_succ]

lemma Pb_purlin_descs_eval : purlinDescriptors Pb =
    [⟨Kind.purlin, ⟨1, 1, 23/2⟩, 1, 1, 4⟩,
     ⟨Kind.purlin, ⟨1, 3, 23/2⟩, 1, 1, 4⟩,
     ⟨Kind.purlin, ⟨1, 1, 23/2⟩, 1, 1, 4⟩,
     ⟨Kind.purlin, ⟨1, 3, 23/2⟩, 1, 1, 4⟩] := by
  norm_num [purlinDescriptors, purlinCenter, purCX, perlin_height, purY1,
    purY2, purZ1, purZ2, purlin_spacing, total_width, horiz_spacing, Pb, Pa,
    List.range_succ]

lemma Pb_column_descs_eval : columnDescriptors Pb =
    [⟨Kind.column, ⟨1, 1/2, 5⟩, 1, 1, 10⟩,
     ⟨Kind.column, ⟨21, 1/2, 5⟩, 1, 1, 10⟩] := by
  norm_num [columnDescriptors, columnCenter, columnCX, columnCY,
    calculated_height, y_spacing_ground, total_ground_length,
    total_slope_length, vert_spacing, div_y, x_spacing, div_x, total_width,
    horiz_spacing, Pb, Pa, List.range_succ]

end SolarStruct

namespace SolarStruct

/-! Theorems settling the claims. -/

/-- Claim C1 (code bug): the claim says every rafter's FE member chain is
built from that rafter's own point list (purlin intersections plus column
attachment), not from any other component's node sequence.  The code
instead chains `node_names`, the leftover variable holding the *last
purlin's* chain (line 628, marked "TO BE MODIFIED" in the source), once
per rafter.  At `Pa`: the single rafter's attempted members are exactly
the last purlin's chain pairs; the first such member starts at the last
purlin's left endpoint node, which is not among the rafter's own
collected node names `one_rafter_names`. -/
theorem C1_rafter_members_reuse_last_purlin_chain :
    rafterStageMembers Pa =
      [chainMembers (lastChainNames Pa) rafter_angle Role.rafter] ∧
    lastChainNames Pa =
      [((-1000, false), (3000, false), (11500, false)),
       ((0, false), (3000, false), (11500, false)),
       ((1000, false), (3000, false), (11500, false)),
       ((3000, false), (3000, false), (11500, false))] ∧
    one_rafter_names Pa 0 =
      [((1000, false), (1000, false), (11500, false)),
       ((1000, false), (3000, false), (11500, false)),
       ((1000, false), (500, false), (0, false))] ∧
    (((rafterStageMembers Pa).getD 0 []).getD 0 dMember).iNode =
      ((-1000, false), (3000, false), (11500, false)) ∧
    (((rafterStageMembers Pa).getD 0 []).getD 0 dMember).iNode ∉
      one_rafter_names Pa 0 := by
  refine ⟨?_, Pa_last_names_eval, Pa_one_rafter_names_eval, ?_, ?_⟩
  · rw [rafterStageMembers]
    norm_num [show Pa.x_cols = 1 from rfl, List.range_succ]
  · rw [Pa_rafter_members_eval]
    norm_num
  · rw [Pa_rafter_members_eval, Pa_one_rafter_names_eval]
    norm_num

/-- Claim C2, counterexample: the points (-0.0001, 1, 11.5) and
(0, 1, 11.5) are both registered during the purlin node process at `Pc`
(the first is the upper purlin's left endpoint, the second the first
panel edge point), their coordinates agree after rounding to three
decimals, yet their node identifiers differ (the formatted name of the
first is "N_-0.000_1.000_11.500", of the second "N_0.000_1.000_11.500"),
so two distinct nodes are created for one rounded coordinate. -/
theorem C2_rounding_agreement_counterexample :
    ((((0 : ℤ), true), ((1000 : ℤ), false), ((11500 : ℤ), false)),
        (⟨-1/10000, 1, 23/2⟩ : Point3)) ∈ purlinNodesTable Pc ∧
    ((((0 : ℤ), false), ((1000 : ℤ), false), ((11500 : ℤ), false)),
        (⟨0, 1, 23/2⟩ : Point3)) ∈ purlinNodesTable Pc ∧
    round3 (-1/10000 : ℚ) = round3 (0 : ℚ) ∧
    nodeId ⟨-1/10000, 1, 23/2⟩ ≠ nodeId ⟨0, 1, 23/2⟩ := by
  refine ⟨?_, ?_, by norm_num [round3], ?_⟩
  · rw [Pc_table_eval]
    simp
  · rw [Pc_table_eval]
    simp
  · norm_num [nodeId, fmt3, round3]

/-- Claim C2, amended: two points whose coordinates agree after rounding
to three decimal places produce the same node identifier *provided* no
coordinate differs in displayed sign (that is, on no axis is one value
negative-rounding-to-zero while the other is not: such values format as
"-0.000" versus "0.000" and get distinct identifiers); under that
condition registering the second point right after the first leaves the
registration state unchanged, so the existing node is reused. -/
theorem C2_amended_same_rounding_same_sign_dedup (p q : Point3)
    (hx : round3 p.x = round3 q.x) (hy : round3 p.y = round3 q.y)
    (hz : round3 p.z = round3 q.z)
    (sx : p.x < 0 ∧ round3 p.x = 0 ↔ q.x < 0 ∧ round3 q.x = 0)
    (sy : p.y < 0 ∧ round3 p.y = 0 ↔ q.y < 0 ∧ round3 q.y = 0)
    (sz : p.z < 0 ∧ round3 p.z = 0 ↔ q.z < 0 ∧ round3 q.z = 0) :
    nodeId p = nodeId q ∧
      ∀ (nodes : List (NodeId × Point3)) (pts : List Point3),
        registerList nodes (p :: q :: pts) = registerList nodes (p :: pts) := by
  have hid : nodeId p = nodeId q := by
    unfold nodeId fmt3
    rw [if_congr sx rfl rfl, if_congr sy rfl rfl, if_congr sz rfl rfl,
      hx, hy, hz]
  refine ⟨hid, ?_⟩
  intro nodes pts
  by_cases hmem : nodeId p ∈ nodes.map Prod.fst
  · rw [registerList_cons_mem _ _ _ hmem,
      registerList_cons_mem _ _ _ (hid ▸ hmem),
      registerList_cons_mem _ _ _ hmem]
  · have hq : nodeId q ∈ (nodes ++ [(nodeId p, p)]).map Prod.fst := by
      rw [← hid]
      exact List.mem_map_of_mem Prod.fst
        (List.mem_append_right nodes (List.mem_singleton_self _))
    rw [registerList_cons_not_mem _ _ _ hmem,
      registerList_cons_mem _ _ _ hq,
      registerList_cons_not_mem _ _ _ hmem]

/-- Witness for the amended claim C2 at the concrete points
(0.0001, 5, 7) and (0.0002, 5, 7): both round to (0.000, 5.000, 7.000)
with equal displayed signs, the identifiers coincide, and registering
the second after the first adds nothing. -/
theorem C2_amended_same_rounding_same_sign_dedup_witness :
    nodeId ⟨1/10000, 5, 7⟩ = nodeId ⟨2/10000, 5, 7⟩ ∧
      registerList [] [⟨1/10000, 5, 7⟩, ⟨2/10000, 5, 7⟩] =
        registerList [] [⟨1/10000, 5, 7⟩] := by
  have h := C2_amended_same_rounding_same_sign_dedup
    ⟨1/10000, 5, 7⟩ ⟨2/10000, 5, 7⟩
    (by norm_num [round3]) (by norm_num [round3]) (by norm_num [round3])
    (by norm_num [round3]) (by norm_num [round3]) (by norm_num [round3])
  exact ⟨h.1, h.2 [] []⟩

/-- Claim C3 (code bug): the claim says every array copy (i, j) adds
exactly i*x_gap to the center X (and j*y_gap to the center Y) of every
emitted component, purlins included, so with two copies and x_gap = 20
each second-copy center X is the first-copy one plus 20.  The purlin
emission (lines 386-421) never adds the copy offsets although it sits
inside the copy loops: at `Pb` (copies_in_x = 2, x_gap = 20) the
second-copy purlin descriptor (index 2) has the same center as the
first-copy one (index 0) instead of X + 20, while the column
descriptors do shift by exactly 20. -/
theorem C3_purlin_centers_missing_copy_offset :
    (purlinDescriptors Pb).length = 4 ∧
    ((purlinDescriptors Pb).getD 2 dDesc).center =
      ((purlinDescriptors Pb).getD 0 dDesc).center ∧
    ((purlinDescriptors Pb).getD 2 dDesc).center.x ≠
      ((purlinDescriptors Pb).getD 0 dDesc).center.x + 20 ∧
    ((columnDescriptors Pb).getD 1 dDesc).center.x =
      ((columnDescriptors Pb).getD 0 dDesc).center.x + 20 := by
  rw [Pb_purlin_descs_eval, Pb_column_descs_eval]
  norm_num

end SolarStruct

namespace SolarStruct

/-- Claim C4, counterexample: the claim says chaining fewer than two
points for a component is a construction error that aborts the whole
build and that nothing is silently absorbed.  At `Pb` (two array copies)
the second copy's purlins have every point's name already registered, so
their chains come out empty — fewer than two points — yet no error
exists anywhere in the code path: the build completes, processes all
four purlins, and silently emits zero members for each empty chain. -/
theorem C4_short_chain_absorbed_counterexample :
    (purlinChains Pb).length = 4 ∧
    (purlinChains Pb).getD 2 [] = [] ∧
    (purlinChains Pb).getD 3 [] = [] ∧
    (purlinMemberss Pb).length = 4 ∧
    (purlinMemberss Pb).getD 2 [dMember] = [] ∧
    (purlinMemberss Pb).getD 3 [dMember] = [] ∧
    ((purlinChains Pb).getD 0 []).length = 4 := by
  rw [show purlinMemberss Pb = (purlinChains Pb).map fun ch =>
    chainMembers (ch.map Prod.fst) (purlin_angle Pb) Role.purlin from rfl]
  rw [Pb_chains_eval]
  norm_num [chainMembers]

/-- Claim C4, amended: the purlin member stage is total and silent — each
purlin's members are exactly the consecutive pairs of its registered
chain, so a chain with fewer than two nodes contributes no members and
no error; and duplicate-node registration is a caught-and-discarded
insert: a point whose identifier is already in the table is dropped
entirely (neither the table nor the component's chain changes), rather
than an insert-or-get that reuses the existing node in the chain. -/
theorem C4_amended_silent_short_chains (P : ParameterSet) (k : ℕ)
    (nodes : List (NodeId × Point3)) (pts : List Point3) (p : Point3)
    (hdup : nodeId p ∈ nodes.map Prod.fst) :
    (purlinMemberss P).getD k [] =
      chainMembers (((purlinChains P).getD k []).map Prod.fst)
        (purlin_angle P) Role.purlin ∧
    ((((purlinChains P).getD k []).length ≤ 1) →
      (purlinMemberss P).getD k [] = []) ∧
    registerList nodes (p :: pts) = registerList nodes pts := by
  have hmap : (purlinMemberss P).getD k [] =
      chainMembers (((purlinChains P).getD k []).map Prod.fst)
        (purlin_angle P) Role.purlin := by
    have h := getD_map_eq (fun ch : List (NodeId × Point3) =>
      chainMembers (ch.map Prod.fst) (purlin_angle P) Role.purlin)
      (purlinChains P) k []
    simpa [purlinMemberss, chainMembers] using h
  refine ⟨hmap, ?_, registerList_cons_mem nodes p pts hdup⟩
  intro hlen
  rw [hmap]
  apply chainMembers_of_short
  rw [List.length_map]
  exact hlen

/-- Witness for the amended claim C4 at `Pb` and purlin index 2 (the
second copy's upper purlin, whose chain is empty), plus a concrete
duplicate registration that is dropped. -/
theorem C4_amended_silent_short_chains_witness :
    (((purlinChains Pb).getD 2 []).length ≤ 1) ∧
    (purlinMemberss Pb).getD 2 [] = [] ∧
    nodeId (⟨0, 0, 0⟩ : Point3) ∈
      ([(nodeId ⟨0, 0, 0⟩, (⟨0, 0, 0⟩ : Point3))].map Prod.fst) ∧
    registerList [(nodeId ⟨0, 0, 0⟩, ⟨0, 0, 0⟩)] [⟨0, 0, 0⟩, ⟨5, 5, 5⟩] =
      registerList [(nodeId ⟨0, 0, 0⟩, ⟨0, 0, 0⟩)] [⟨5, 5, 5⟩] := by
  have hlen : (((purlinChains Pb).getD 2 []).length ≤ 1) := by
    rw [Pb_chains_eval]
    norm_num
  have hmem : nodeId (⟨0, 0, 0⟩ : Point3) ∈
      ([(nodeId ⟨0, 0, 0⟩, (⟨0, 0, 0⟩ : Point3))].map Prod.fst) := by
    simp
  have h := C4_amended_silent_short_chains Pb 2
    [(nodeId ⟨0, 0, 0⟩, ⟨0, 0, 0⟩)] [⟨5, 5, 5⟩] ⟨0, 0, 0⟩ hmem
  exact ⟨hlen, h.2.1 hlen, hmem, h.2.2⟩

/-- Claim C5, counterexample: the claim says every purlin's member chain
visits its nodes in strictly ascending X order.  At `Pd` the panel
overhang (1) exceeds the purlin overhang (0), so the purlin's left
endpoint (x = 1) is registered first but the panel-edge node at x = 0 is
registered after it: the first purlin's chain visits x = 1, 0, 3, which
is not ascending. -/
theorem C5_ascending_counterexample :
    ((purlinChains Pd).getD 0 []).map (fun e => e.2.x) = [1, 0, 3] ∧
    ¬ List.Chain' (fun a b => a.2.x < b.2.x) ((purlinChains Pd).getD 0 []) ∧
    ¬ List.Pairwise (fun a b => a.2.x < b.2.x) ((purlinChains Pd).getD 0 []) := by
  have hch : (purlinChains Pd).getD 0 [] =
      [(((1000, false), (1000, false), (11500, false)), ⟨1, 1, 23/2⟩),
       (((0, false), (1000, false), (11500, false)), ⟨0, 1, 23/2⟩),
       (((3000, false), (1000, false), (11500, false)), ⟨3, 1, 23/2⟩)] := by
    rw [Pd_chains_eval]
    rfl
  rw [hch]
  refine ⟨by norm_num, ?_, ?_⟩
  · intro hc
    rcases List.chain'_cons.mp hc with ⟨h01, -⟩
    norm_num at h01
  · intro hp
    have h01 := (List.pairwise_cons.mp hp).1
      ((((0 : ℤ), false), ((1000 : ℤ), false), ((11500 : ℤ), false)),
        (⟨0, 1, 23/2⟩ : Point3)) (by simp)
    norm_num at h01

/-- Claim C5, amended: provided the panel width and horizontal gap are
nonnegative, the total width is nonnegative, and the horizontal panel
overhang is nonnegative and at most the horizontal purlin overhang
(so the purlin endpoints really bracket all its rafter and panel
positions), every purlin's member chain is strictly ascending in X —
even pairwise, not just consecutively — and no two consecutive chain
nodes are equal.  This holds whatever nodes earlier purlins already
registered. -/
theorem C5_amended_chains_strictly_ascending (P : ParameterSet)
    (h1 : 0 ≤ P.panel_width) (h2 : 0 ≤ P.h_gap) (h3 : 0 ≤ total_width P)
    (h4 : 0 ≤ P.hor_panel_overhang)
    (h5 : P.hor_panel_overhang ≤ P.hor_purlin_overhang) :
    ∀ ch ∈ purlinChains P,
      ch.Pairwise (fun a b => a.2.x < b.2.x) ∧
        List.Chain' (fun a b => a ≠ b) ch := by
  intro ch hch
  rw [purlinChains] at hch
  have hstrict : ch.Pairwise (fun a b => a.2.x < b.2.x) := by
    refine buildAux_chains_pairwise (allPurlins P) [] ?_ ch hch
    intro pl hpl
    obtain ⟨row, u, rfl⟩ := mem_allPurlins P hpl
    exact ⟨purlinAt_points_sorted P row u h1 h2 h3 h4 h5,
      purlinAt_common_yz P row u⟩
  refine ⟨hstrict, ?_⟩
  exact (hstrict.imp fun hab heq => absurd (heq ▸ hab) (lt_irrefl _)).chain'

/-- Witness for the amended claim C5 at `Pa` (overhangs 0 ≤ 1), applied
to the first purlin's chain. -/
theorem C5_amended_chains_strictly_ascending_witness :
    (0 : ℚ) ≤ Pa.panel_width ∧
    Pa.hor_panel_overhang ≤ Pa.hor_purlin_overhang ∧
    ((purlinChains Pa).getD 0 []).Pairwise (fun a b => a.2.x < b.2.x) ∧
    List.Chain' (fun a b => a ≠ b) ((purlinChains Pa).getD 0 []) := by
  have hmem : (purlinChains Pa).getD 0 [] ∈ purlinChains Pa := by
    rw [Pa_chains_eval]
    simp
  have h := C5_amended_chains_strictly_ascending Pa
    (by norm_num [Pa]) (by norm_num [Pa])
    (by norm_num [total_width, horiz_spacing, Pa])
    (by norm_num [Pa]) (by norm_num [Pa])
    ((purlinChains Pa).getD 0 []) hmem
  exact ⟨by norm_num [Pa], by norm_num [Pa], h.1, h.2⟩

end SolarStruct

namespace SolarStruct

/-- Claim C6: for every parameter set, one generate call emits exactly
rows * cols * copies_in_x * copies_in_y panel descriptors. -/
theorem C6_panel_count (P : ParameterSet) :
    (panelDescriptors P).length =
      P.rows * P.cols * P.copies_in_x * P.copies_in_y := by
  rw [panelDescriptors]
  rw [length_flatMap_range _ _ (P.copies_in_y * (P.cols * P.rows))
    (fun i => length_flatMap_range _ _ (P.cols * P.rows)
      (fun j => length_flatMap_range _ _ P.rows
        (fun c => by simp)))]
  ring

/-- Claim C7: when a single support column exists along the width axis
(`x_cols = 1`), the X position used for every column and for the single
rafter is exactly `total_width / 2` (the centered branch of lines 253 and
307), and the column-spacing divisor `div_x = max(1, x_cols - 1)` equals
1, so the spacing formula is never evaluated with a zero divisor. -/
theorem C7_single_column_centered (P : ParameterSet) (h : P.x_cols = 1) :
    (∀ x_i : ℕ, columnCX P x_i = total_width P / 2 ∧
      rafterX P x_i = total_width P / 2) ∧
    div_x P = 1 ∧
    x_spacing P = total_width P / (div_x P : ℚ) := by
  have hdx : div_x P = 1 := by
    rw [div_x, h]
    rfl
  refine ⟨?_, hdx, ?_⟩
  · intro x_i
    rw [columnCX, rafterX, h]
    norm_num
  · rw [x_spacing, if_pos (by rw [hdx]; exact Nat.zero_lt_one)]

/-- Witness for claim C7 at `Pa` (whose `x_cols` is 1). -/
theorem C7_single_column_centered_witness :
    Pa.x_cols = 1 ∧
    columnCX Pa 0 = total_width Pa / 2 ∧
    rafterX Pa 0 = total_width Pa / 2 ∧
    div_x Pa = 1 :=
  ⟨rfl, ((C7_single_column_centered Pa rfl).1 0).1,
    ((C7_single_column_centered Pa rfl).1 0).2,
    (C7_single_column_centered Pa rfl).2.1⟩

/-- Claim C8 (code bug): the claim says each support column becomes a
single two-node FE member from the ground point at Z = 0 to the soffit
point at Z = m*y + c.  The code does compute exactly those segment
endpoints (`column_coords`, with the soffit height from the fitted line,
as the first two conjuncts show at `Pa`), and its comments at lines
623-625 say the column members are to be made there — but no
`add_member` call for columns exists: every member registration the
build attempts (purlin pass and rafter pass) is listed by
`allAttemptedMembers`, and none of them touches any node at ground
level Z = 0, so no column member is ever created. -/
theorem C8_no_column_member_created :
    column_coords Pa = [(⟨1, 1/2, 0⟩, ⟨1, 1/2, 23/2⟩)] ∧
    slope_m Pa * columnCY Pa 0 + slope_c Pa = 23 / 2 ∧
    (allAttemptedMembers Pa).length = 9 ∧
    ¬ ∃ m ∈ allAttemptedMembers Pa,
        m.iNode.2.2 = fmt3 0 ∨ m.jNode.2.2 = fmt3 0 := by
  refine ⟨Pa_column_coords_eval, ?_, ?_, ?_⟩
  · norm_num [slope_m, slope_c, columnCY, y_spacing_ground,
      total_ground_length, total_slope_length, vert_spacing, div_y, purY1,
      purY2, purZ1, purZ2, purlin_spacing, Pa]
  · rw [Pa_members_eval]
    norm_num
  · rw [Pa_members_eval]
    norm_num [fmt3, round3]

/-- Claim C9: for every array copy and support-column grid position, the
ground block descriptor is centered at Z = -blk_height/2 with the
column's own X and Y, so its top face sits exactly at Z = 0 and, the
block height being positive, the block spans [-blk_height, 0] entirely
at or below ground. -/
theorem C9_block_below_ground (P : ParameterSet) (i j y_i x_i : ℕ)
    (h : 0 < P.blk_heigth) :
    (blockCenter P i j y_i x_i).x = (columnCenter P i j y_i x_i).x ∧
    (blockCenter P i j y_i x_i).y = (columnCenter P i j y_i x_i).y ∧
    (blockCenter P i j y_i x_i).z = -(P.blk_heigth / 2) ∧
    (blockCenter P i j y_i x_i).z + P.blk_heigth / 2 = 0 ∧
    (blockCenter P i j y_i x_i).z - P.blk_heigth / 2 = -P.blk_heigth ∧
    -P.blk_heigth < 0 := by
  refine ⟨rfl, rfl, rfl, ?_, ?_, by linarith⟩
  · show -(P.blk_heigth / 2) + P.blk_heigth / 2 = 0
    ring
  · show -(P.blk_heigth / 2) - P.blk_heigth / 2 = -P.blk_heigth
    ring

/-- Witness for claim C9 at `Pa` and grid position (0, 0, 0, 0). -/
theorem C9_block_below_ground_witness :
    (0 : ℚ) < Pa.blk_heigth ∧
    (blockCenter Pa 0 0 0 0).x = (columnCenter Pa 0 0 0 0).x ∧
    (blockCenter Pa 0 0 0 0).z + Pa.blk_heigth / 2 = 0 ∧
    -Pa.blk_heigth < 0 := by
  have hpos : (0 : ℚ) < Pa.blk_heigth := by norm_num [Pa]
  have h := C9_block_below_ground Pa 0 0 0 0 hpos
  exact ⟨hpos, h.1, h.2.2.2.1, h.2.2.2.2.2⟩

/-- Claim C10: `create_nodes_plotly` returns no primitive on an empty
point list and the pipeline then appends nothing to the render list; on
a non-empty list it returns exactly one primitive whose marker
coordinate lists are the input points' coordinates, one marker per
point, in input order, and the pipeline appends exactly that one
primitive. -/
theorem C10_create_nodes_plotly (ns : List Point3)
    (meshes : List RenderItem) :
    (ns = [] → create_nodes_plotly ns = none ∧
      appendNodeTrace meshes ns = meshes) ∧
    (ns ≠ [] →
      create_nodes_plotly ns =
        some ⟨ns.map Point3.x, ns.map Point3.y, ns.map Point3.z⟩ ∧
      appendNodeTrace meshes ns = meshes ++
        [RenderItem.nodeCloud
          ⟨ns.map Point3.x, ns.map Point3.y, ns.map Point3.z⟩] ∧
      (ns.map Point3.x).length = ns.length ∧
      (ns.map Point3.y).length = ns.length ∧
      (ns.map Point3.z).length = ns.length) := by
  constructor
  · intro h
    subst h
    constructor
    · rw [create_nodes_plotly]
      simp
    · rw [appendNodeTrace, create_nodes_plotly]
      simp
  · intro h
    have hc : create_nodes_plotly ns =
        some ⟨ns.map Point3.x, ns.map Point3.y, ns.map Point3.z⟩ := by
      rw [create_nodes_plotly, if_neg h]
    refine ⟨hc, ?_, by simp, by simp, by simp⟩
    rw [appendNodeTrace, hc]

/-- Witness for claim C10 on the empty list and on a one-point list. -/
theorem C10_create_nodes_plotly_witness :
    create_nodes_plotly [] = none ∧
    appendNodeTrace [] [] = [] ∧
    create_nodes_plotly [⟨1, 2, 3⟩] = some ⟨[1], [2], [3]⟩ ∧
    appendNodeTrace [] [⟨1, 2, 3⟩] =
      [RenderItem.nodeCloud ⟨[1], [2], [3]⟩] := by
  have h0 := (C10_create_nodes_plotly [] []).1 rfl
  have h1 := (C10_create_nodes_plotly [⟨1, 2, 3⟩] []).2 (by simp)
  refine ⟨h0.1, h0.2, ?_, ?_⟩
  · rw [h1.1]
    rfl
  · rw [h1.2.1]
    rfl

end SolarStruct
